import Mathlib

/-!
Verification of the Hareram.ai front-end (src/App.tsx, src/geminiService.ts).

The TypeScript components are shallowly embedded: each React component's
local state becomes a structure, each event handler becomes a pure state
transition, and calls to the vendor SDK become explicit request values or
outcome parameters (success / thrown error), so that the handlers' control
flow can be analysed.  Times in the live-audio scheduler are rationals.
-/

namespace Hareram

/-! ## JavaScript string trimming

`prompt.trim()` from the handlers' guards: removes leading and trailing
whitespace.  `isJsSpace` covers the whitespace characters relevant here. -/

def isJsSpace (c : Char) : Bool :=
  c = ' ' || c = '\t' || c = '\n' || c = '\r' || c = '\x0b' || c = '\x0c' ||
  c = '\u00A0' || c = '\uFEFF'

def jsTrim (s : String) : String :=
  String.mk (((s.toList.dropWhile (fun c => isJsSpace c)).reverse.dropWhile
    (fun c => isJsSpace c)).reverse)

/-- JS `String.prototype.startsWith` on character lists. -/
def listStartsWith : List Char → List Char → Bool
  | _, [] => true
  | [], _ :: _ => false
  | c :: cs, d :: ds => c = d && listStartsWith cs ds

/-- JS `String.prototype.includes` on character lists. -/
def listContainsSub : List Char → List Char → Bool
  | [], sub => sub.isEmpty
  | c :: cs, sub => listStartsWith (c :: cs) sub || listContainsSub cs sub

/-- JS `msg.includes(sub)` (from `e.message?.includes(...)` in App.tsx). -/
def strIncludes (s sub : String) : Bool :=
  listContainsSub s.toList sub.toList

/-! ## Chatbot component (App.tsx, `Chatbot`)

State: `chat` ref (initialized by an effect), `messages`, `input`,
`isLoading`.  `handleSend` is split into the synchronous prologue before
the vendor request (`handleSendStart`: guard, append the user message,
clear the input, set loading, issue the request) and the processing of the
streamed outcome (`handleSendFinish`).  The streamed chunks are applied
one at a time exactly as the source does: the last message's content is
overwritten with the accumulated response after each chunk. -/

inductive Role
  | user
  | model
deriving DecidableEq

structure ChatMessage where
  role : Role
  content : String
deriving DecidableEq

structure ChatState where
  chatInit : Bool
  messages : List ChatMessage
  input : String
  isLoading : Bool
deriving DecidableEq

/-- The static error text appended by the `catch` branch of `handleSend`. -/
def chatErrorText : String := "Sorry, I encountered an error."

/-- Guarded prologue of `handleSend`: `if (!input.trim() || !chat || isLoading) return;`
then append the user message, clear the input, set loading, and send the
(untrimmed) input to the vendor. -/
def handleSendStart (st : ChatState) : ChatState × Option String :=
  if jsTrim st.input = "" ∨ st.chatInit = false ∨ st.isLoading = true then
    (st, none)
  else
    ({ st with messages := st.messages ++ [⟨Role.user, st.input⟩],
               input := "", isLoading := true },
     some st.input)

/-- Embeds `newMessages[newMessages.length - 1].content = modelResponse`: replace the
content of the last message. -/
def setLastContent : List ChatMessage → String → List ChatMessage
  | [], _ => []
  | [m], c => [{ m with content := c }]
  | m :: m2 :: ms, c => m :: setLastContent (m2 :: ms) c

/-- The `for await (const chunk of stream)` loop: `modelResponse += chunk.text`
then overwrite the last message with the accumulated response. -/
def streamSteps : List ChatMessage → String → List String → List ChatMessage
  | msgs, _, [] => msgs
  | msgs, acc, ch :: rest => streamSteps (setLastContent msgs (acc ++ ch)) (acc ++ ch) rest

/-- Concatenation of the stream's chunks. -/
def chunksConcat (cs : List String) : String :=
  cs.foldl (fun a c => a ++ c) ""

/-- Outcome of `chat.sendMessageStream` and the subsequent iteration:
either the stream completes with a list of chunks, or the call itself
throws before the empty model message is appended, or the stream throws
after delivering some chunks. -/
inductive SendOutcome
  | success (chunks : List String)
  | failStart
  | failMid (chunks : List String)

/-- The `try`/`catch`/`finally` tail of `handleSend`: on success the empty
model message is appended and then updated per chunk; on a failure the
static error message is appended (after the partial model message when the
stream had already started). -/
def handleSendFinish (st : ChatState) (o : SendOutcome) : ChatState :=
  match o with
  | .success cs =>
      { st with messages := streamSteps (st.messages ++ [⟨Role.model, ""⟩]) "" cs,
                isLoading := false }
  | .failStart =>
      { st with messages := st.messages ++ [⟨Role.model, chatErrorText⟩],
                isLoading := false }
  | .failMid cs =>
      { st with messages :=
                  streamSteps (st.messages ++ [⟨Role.model, ""⟩]) "" cs
                    ++ [⟨Role.model, chatErrorText⟩],
                isLoading := false }

/-- One full `handleSend` invocation under a given stream outcome. -/
def handleSend (st : ChatState) (o : SendOutcome) : ChatState :=
  match handleSendStart st with
  | (st1, none) => st1
  | (st1, some _) => handleSendFinish st1 o

theorem setLastContent_append : ∀ (ms : List ChatMessage) (m : ChatMessage) (c : String),
    setLastContent (ms ++ [m]) c = ms ++ [{ m with content := c }]
  | [], _, _ => rfl
  | [_], _, _ => rfl
  | a :: b :: ms, m, c => by
      show a :: setLastContent ((b :: ms) ++ [m]) c
          = a :: ((b :: ms) ++ [{ m with content := c }])
      rw [setLastContent_append (b :: ms) m c]

theorem streamSteps_eq : ∀ (cs : List String) (ms : List ChatMessage) (r : Role) (acc : String),
    streamSteps (ms ++ [⟨r, acc⟩]) acc cs
      = ms ++ [⟨r, cs.foldl (fun a c => a ++ c) acc⟩]
  | [], _, _, _ => rfl
  | ch :: rest, ms, r, acc => by
      show streamSteps (setLastContent (ms ++ [⟨r, acc⟩]) (acc ++ ch)) (acc ++ ch) rest = _
      rw [setLastContent_append]
      exact streamSteps_eq rest ms r (acc ++ ch)

/-! ## Live-audio playback scheduler (App.tsx, `LiveAgent.onmessage`)

The `onmessage` callback schedules received audio chunks on the output
audio context.  A scheduled buffer source is modelled by its start time
and its duration; the component state tracked here is `audioQueueRef`
(the set of pending sources) and `nextStartTimeRef` (the cursor). -/

structure SourceEntry where
  startTime : Rat
  dur : Rat
deriving DecidableEq

structure Sched where
  queue : List SourceEntry
  nextStartTime : Rat
deriving DecidableEq

/-- A live-session message: optional inline audio (represented by the decoded
buffer's duration) and the `serverContent.interrupted` flag. -/
structure LiveMsg where
  audioDur : Option Rat
  interrupted : Bool
deriving DecidableEq

/-- Scheduling of one audio chunk at audio-context time `t`:
`nextStartTime = max(nextStartTime, ctx.currentTime)`, start the source
there, advance the cursor by the buffer's duration, and add the source to
the queue.  Returns the new state and the scheduled source. -/
def scheduleChunk (s : Sched) (dur t : Rat) : Sched × SourceEntry :=
  let b := max s.nextStartTime t
  (⟨s.queue ++ [⟨b, dur⟩], b + dur⟩, ⟨b, dur⟩)

/-- The `onmessage` handler: first schedule the message's audio chunk (if
any), then, on `interrupted`, stop every queued source, clear the queue
and reset the cursor to zero.  The second component lists the sources on
which `stop()` was called. -/
def onmessage (s : Sched) (m : LiveMsg) (t : Rat) : Sched × List SourceEntry :=
  let s1 := match m.audioDur with
    | some d => (scheduleChunk s d t).1
    | none => s
  if m.interrupted then (⟨[], 0⟩, s1.queue) else (s1, [])

/-! ## Live session resources (App.tsx, `LiveAgent.startSession` / `stopSession`)

Booleans record which platform resources exist and what has been done to
them.  `micTracksStopped` records whether `stop()` was ever called on the
microphone stream's tracks; no statement in App.tsx does so. -/

structure LiveState where
  isSessionActive : Bool
  status : String
  sessionRefSet : Bool
  channelOpen : Bool
  micAcquired : Bool
  micTracksStopped : Bool
  inCtxCreated : Bool
  inCtxClosed : Bool
  outCtxCreated : Bool
  outCtxClosed : Bool
  scriptConnected : Bool
  sourceConnected : Bool
  closeRequested : Bool
  sched : Sched
deriving DecidableEq

def liveIdleStatus : String := "Not connected. Press Start to talk."

/-- Embeds `startSession` after `getUserMedia` succeeded and both audio contexts
were constructed, before any live callback fires: the microphone stream
exists (its tracks are live) and both contexts are open. -/
def startSessionAcquired (st : LiveState) : LiveState :=
  { st with isSessionActive := true, status := "Connecting...",
            micAcquired := true, micTracksStopped := false,
            inCtxCreated := true, inCtxClosed := false,
            outCtxCreated := true, outCtxClosed := false,
            sessionRefSet := true, channelOpen := false }

/-- The `onopen` callback: builds and connects the audio-processing graph. -/
def onopenHandler (st : LiveState) : LiveState :=
  { st with status := "Connected! You can start talking.",
            channelOpen := true, sourceConnected := true, scriptConnected := true }

/-- Embeds `stopSession(shouldClose)`: request the channel close when a session
ref exists, disconnect the processing nodes, close the input context (if
created), stop and clear the queued sources, close the output context (if
created), and reset the activity flags.  The microphone stream is not
referenced here, so its tracks are never stopped. -/
def stopSession (st : LiveState) (shouldClose : Bool) : LiveState :=
  { st with closeRequested := st.closeRequested || (st.sessionRefSet && shouldClose),
            scriptConnected := false,
            sourceConnected := false,
            inCtxClosed := st.inCtxClosed || st.inCtxCreated,
            sched := ⟨[], st.sched.nextStartTime⟩,
            outCtxClosed := st.outCtxClosed || st.outCtxCreated,
            isSessionActive := false,
            status := liveIdleStatus,
            sessionRefSet := false }

/-- The all-inactive initial component state. -/
def liveInit : LiveState :=
  { isSessionActive := false, status := liveIdleStatus, sessionRefSet := false,
    channelOpen := false, micAcquired := false, micTracksStopped := false,
    inCtxCreated := false, inCtxClosed := false,
    outCtxCreated := false, outCtxClosed := false,
    scriptConnected := false, sourceConnected := false, closeRequested := false,
    sched := ⟨[], 0⟩ }

/-! ## Video generation (App.tsx, `VideoGenerator`; geminiService.ts)

The long-running operation handle mirrors `types.ts`: a name, a completion
flag and, once complete, the generated videos with their URIs.  The
polling loop is evaluated with explicit fuel (number of refresh attempts
the environment is observed for); the refresh outcomes of
`api.checkVideoOperation` are a stream indexed by the attempt number. -/

structure VideoRef where
  uri : String
deriving DecidableEq

structure GeneratedVideo where
  video : VideoRef
deriving DecidableEq

structure VeoResponse where
  generatedVideos : List GeneratedVideo
deriving DecidableEq

structure VeoOperation where
  name : String
  done : Bool
  response : Option VeoResponse
deriving DecidableEq

/-- An uploaded file (name, MIME type, base64 payload from `fileToBase64`). -/
structure ImgFile where
  fname : String
  mime : String
  base64 : String
deriving DecidableEq

structure VideoUIState where
  prompt : String
  imageFile : Option ImgFile
  aspect : String
  videoUrl : Option String
  isLoading : Bool
  loadingMessage : String
  error : String
  apiKeySelected : Bool
deriving DecidableEq

def pollingMsg : String := "Processing video... this can take a few minutes."

def checkFailedMsg : String := "Failed to check video status. The API key might be invalid."

def noVideoMsg : String := "Video generation completed, but no video was returned."

/-- Embeds `operationRef.current.response?.generatedVideos?.[0]?.video?.uri`. -/
def videoUri (op : VeoOperation) : Option String :=
  match op.response with
  | none => none
  | some r => r.generatedVideos.head?.map (fun g => g.video.uri)

/-- The post-loop branch of `pollOperation`: with a truthy URI the video is
fetched and exposed as an object URL (recorded as the URI it was fetched
from); otherwise the no-video error is surfaced.  Either way loading ends. -/
def pollFinishDone (st : VideoUIState) (cur : VeoOperation) : VideoUIState :=
  let uri := (videoUri cur).getD ""
  if uri = "" then { st with error := noVideoMsg, isLoading := false }
  else { st with videoUrl := some uri, isLoading := false }

/-- The `catch` inside the polling loop: surface the check-failure message,
end loading, and reset the key-selection state. -/
def pollCatch (st : VideoUIState) : VideoUIState :=
  { st with error := checkFailedMsg, isLoading := false, apiKeySelected := false }

/-- Result of running the polling loop for a bounded number of refresh
attempts: either the function returned (its final UI state), or the fuel
ran out with the loop still going. -/
inductive PollOutcome
  | finished (st : VideoUIState)
  | outOfFuel (st : VideoUIState) (cur : VeoOperation)
deriving DecidableEq

/-- The `while (operationRef.current && !operationRef.current.done)` loop of
`pollOperation`: each iteration sets the progress message and refreshes the
handle; a refresh failure takes the catch branch; once the handle is done
the loop exits into `pollFinishDone`.  `i` is the index of the next refresh
attempt in the outcome stream, `fuel` bounds how many refreshes are run. -/
def pollGo (refresh : Nat → Except Unit VeoOperation) (st : VideoUIState)
    (cur : VeoOperation) (i : Nat) (fuel : Nat) : PollOutcome :=
  if cur.done then .finished (pollFinishDone st cur)
  else
    match fuel with
    | 0 => .outOfFuel { st with loadingMessage := pollingMsg } cur
    | n + 1 =>
      match refresh i with
      | .error _ => .finished (pollCatch { st with loadingMessage := pollingMsg })
      | .ok op => pollGo refresh { st with loadingMessage := pollingMsg } op (i + 1) n

/-- Embeds `pollOperation(op)` observed for at most `fuel` refresh attempts. -/
def pollOperation (st : VideoUIState) (refresh : Nat → Except Unit VeoOperation)
    (op : VeoOperation) (fuel : Nat) : PollOutcome :=
  pollGo refresh st op 0 fuel

def entityNotFoundText : String := "Requested entity was not found"

/-- The `catch` of `VideoGenerator.handleSubmit`: an invalid-entity message
routes to the reselect-credentials state, anything else to the generic
start-failure message; loading ends in both cases. -/
def videoSubmitCatch (st : VideoUIState) (msg : String) : VideoUIState :=
  if strIncludes msg entityNotFoundText then
    { st with error := "API Key error. Please select your API key again.",
              apiKeySelected := false, isLoading := false }
  else
    { st with error := "Failed to start video generation.", isLoading := false }

/-- Embeds `VideoGenerator.handleSubmit` under a given outcome of
`api.generateVideo` (a handle, or a thrown error message), followed by the
polling loop when a handle was obtained. -/
def videoHandleSubmit (st : VideoUIState) (o : Except String VeoOperation)
    (refresh : Nat → Except Unit VeoOperation) (fuel : Nat) : PollOutcome :=
  if jsTrim st.prompt = "" ∨ st.imageFile = none then .finished st
  else
    let st1 := { st with isLoading := true, videoUrl := none, error := "",
                         loadingMessage := "Starting video generation..." }
    match o with
    | .error msg => .finished (videoSubmitCatch st1 msg)
    | .ok op => pollGo refresh st1 op 0 fuel

/-! ## Text generation with tools (App.tsx, `TextGenerator`; geminiService.ts,
`generateText`)

The request value records exactly the parameters marshalled by
`generateText`: model selection, prompt, tool list, thinking budget, and
the optional latitude/longitude attached via `config.toolConfig`. -/

structure Coords where
  latitude : Rat
  longitude : Rat
deriving DecidableEq

inductive ToolKind
  | googleSearch
  | googleMaps
deriving DecidableEq

structure GenTextRequest where
  model : String
  contents : String
  tools : List ToolKind
  thinkingBudget : Option Nat
  toolConfigLatLng : Option (Rat × Rat)
deriving DecidableEq

/-- Embeds `generateText` (geminiService.ts): chooses the model by the thinking
flag, pushes the requested tools, and attaches the retrieval coordinates
exactly when Maps is on and a position is available. -/
def generateTextRequest (prompt : String) (useThinking useSearch useMaps : Bool)
    (pos : Option Coords) : GenTextRequest :=
  { model := if useThinking then "gemini-2.5-pro" else "gemini-2.5-flash-lite",
    contents := prompt,
    tools := (if useSearch then [ToolKind.googleSearch] else [])
               ++ (if useMaps then [ToolKind.googleMaps] else []),
    thinkingBudget := if useThinking then some 32768 else none,
    toolConfigLatLng :=
      if useMaps then pos.map (fun p => (p.latitude, p.longitude)) else none }

structure TextGenState where
  prompt : String
  response : String
  isLoading : Bool
  useThinking : Bool
  useSearch : Bool
  useMaps : Bool
  groundingChunks : List String
  error : String
  position : Option Coords
deriving DecidableEq

/-- Embeds `TextGenerator.handleSubmit` up to the vendor call: the empty-prompt
guard, then reset of response/grounding/error, loading, and the request. -/
def textGenHandleSubmit (st : TextGenState) : TextGenState × Option GenTextRequest :=
  if jsTrim st.prompt = "" then (st, none)
  else
    ({ st with isLoading := true, response := "", groundingChunks := [], error := "" },
     some (generateTextRequest st.prompt st.useThinking st.useSearch st.useMaps st.position))

/-- Outcome of the geolocation permission prompt: a position, or the error
callback (permission denied or otherwise unavailable). -/
inductive GeoOutcome
  | success (p : Coords)
  | failure
deriving DecidableEq

/-- The `useEffect` for the Maps toggle: when Maps is on and no position is
held, request the current position; on success store it, on failure
surface the location error message. -/
def mapsEffect (st : TextGenState) (g : GeoOutcome) : TextGenState :=
  if st.useMaps = true ∧ st.position = none then
    match g with
    | .success p => { st with position := some p }
    | .failure =>
        { st with error := "Could not get location for Maps. Please grant permission." }
  else st

/-! ## The remaining capability submit handlers (App.tsx) -/

structure GenImageRequest where
  model : String
  prompt : String
  numberOfImages : Nat
  outputMimeType : String
  aspect : String
deriving DecidableEq

structure ImageGenState where
  prompt : String
  aspect : String
  imageUrl : String
  isLoading : Bool
  error : String
deriving DecidableEq

/-- Embeds `ImageGenerator.handleSubmit` up to the vendor call. -/
def imageGenHandleSubmit (st : ImageGenState) : ImageGenState × Option GenImageRequest :=
  if jsTrim st.prompt = "" then (st, none)
  else
    ({ st with isLoading := true, imageUrl := "", error := "" },
     some ⟨"imagen-4.0-generate-001", st.prompt, 1, "image/jpeg", st.aspect⟩)

structure EditImageRequest where
  model : String
  prompt : String
  imageBase64 : String
  mimeType : String
deriving DecidableEq

structure ImageEditState where
  prompt : String
  originalImage : Option ImgFile
  editedImageUrl : String
  isLoading : Bool
  error : String
deriving DecidableEq

/-- Embeds `ImageEditor.handleSubmit` up to the vendor call:
`if (!prompt.trim() || !originalImage) return;`. -/
def imageEditHandleSubmit (st : ImageEditState) : ImageEditState × Option EditImageRequest :=
  if jsTrim st.prompt = "" then (st, none)
  else
    match st.originalImage with
    | none => (st, none)
    | some f =>
        ({ st with isLoading := true, editedImageUrl := "", error := "" },
         some ⟨"gemini-2.5-flash-image", st.prompt, f.base64, f.mime⟩)

structure AnalyzeImageRequest where
  model : String
  prompt : String
  imageBase64 : String
  mimeType : String
deriving DecidableEq

structure ImageAnalyzeState where
  prompt : String
  imageFile : Option ImgFile
  analysis : String
  isLoading : Bool
  error : String
deriving DecidableEq

/-- Embeds `ImageAnalyzer.handleSubmit` up to the vendor call. -/
def imageAnalyzeHandleSubmit (st : ImageAnalyzeState) :
    ImageAnalyzeState × Option AnalyzeImageRequest :=
  if jsTrim st.prompt = "" then (st, none)
  else
    match st.imageFile with
    | none => (st, none)
    | some f =>
        ({ st with isLoading := true, analysis := "", error := "" },
         some ⟨"gemini-2.5-flash", st.prompt, f.base64, f.mime⟩)

structure SpeechRequest where
  model : String
  text : String
  voiceName : String
deriving DecidableEq

structure TtsState where
  text : String
  isLoading : Bool
  error : String
  ctxCreated : Bool
deriving DecidableEq

/-- Embeds `TextToSpeech.handleSpeak` up to the vendor call: the empty-text guard,
then loading, error reset, lazy context creation, and the speech request. -/
def ttsHandleSpeak (st : TtsState) : TtsState × Option SpeechRequest :=
  if jsTrim st.text = "" then (st, none)
  else
    ({ st with isLoading := true, error := "", ctxCreated := true },
     some ⟨"gemini-2.5-flash-preview-tts", st.text, "Kore"⟩)

/-! ## Vendor response payload extraction (geminiService.ts, `editImage` and
`generateSpeech`)

A thrown failure distinguishes the locally raised `Error` (with its
message) from a JavaScript `TypeError` caused by accessing a field of an
absent object. -/

structure InlineData where
  mimeType : String
  data : String
deriving DecidableEq

structure RespPart where
  text : Option String
  inlineData : Option InlineData
deriving DecidableEq

structure Content where
  parts : List RespPart
deriving DecidableEq

structure Candidate where
  content : Option Content
deriving DecidableEq

inductive JsFailure
  | thrown (msg : String)
  | typeErr
deriving DecidableEq

/-- The `for (const part of ...)` scan of `editImage`: the first part with
inline data. -/
def firstInlinePart : List RespPart → Option InlineData
  | [] => none
  | p :: ps =>
    match p.inlineData with
    | some d => some d
    | none => firstInlinePart ps

/-- Embeds `editImage` result extraction: iterate `response.candidates[0].content.parts`
and return the first inline image as a data URI; throw `"No image generated"`
when no part carries inline data.  Accessing `candidates[0].content` of a
missing candidate or content raises a `TypeError`. -/
def editImageExtract (cands : List Candidate) : Except JsFailure String :=
  match cands with
  | [] => .error .typeErr
  | c :: _ =>
    match c.content with
    | none => .error .typeErr
    | some ct =>
      match firstInlinePart ct.parts with
      | some d => .ok ("data:" ++ d.mimeType ++ ";base64," ++ d.data)
      | none => .error (.thrown "No image generated")

/-- Embeds `response.candidates?.[0]?.content?.parts?.[0]?.inlineData?.data`. -/
def speechAudioData (cands : List Candidate) : Option String :=
  match cands.head? with
  | none => none
  | some cd =>
    match cd.content with
    | none => none
    | some ct =>
      match ct.parts.head? with
      | none => none
      | some p => p.inlineData.map (fun d => d.data)

/-- Embeds `generateSpeech` result extraction: the first part's inline audio data,
with the falsy check `if (!base64Audio) throw ...` (absent or empty). -/
def generateSpeechExtract (cands : List Candidate) : Except JsFailure String :=
  let d := (speechAudioData cands).getD ""
  if d = "" then .error (.thrown "No audio data returned from API") else .ok d

/-! ## Claim theorems -/

/-- C3: whenever a live-session message carries the `interrupted` signal,
the handler stops every pending scheduled buffer source (each previously
queued source is among those on which `stop()` is called), removes them
all from the playback queue, and resets the next-start-time cursor to
zero, so that any subsequently scheduled chunk starts at
`max 0 currentTime`. -/
theorem C3_interrupt_flush (s : Sched) (m : LiveMsg) (t : Rat)
    (h : m.interrupted = true) :
    (onmessage s m t).1.queue = [] ∧
    (onmessage s m t).1.nextStartTime = 0 ∧
    (∀ e ∈ s.queue, e ∈ (onmessage s m t).2) ∧
    (∀ d2 t2 : Rat, (scheduleChunk (onmessage s m t).1 d2 t2).2.startTime = max 0 t2) := by
  refine ⟨?_, ?_, ?_, ?_⟩
  · simp [onmessage, h]
  · simp [onmessage, h]
  · intro e he
    cases ha : m.audioDur with
    | none => simp [onmessage, h, ha, he]
    | some d => simp [onmessage, h, ha, scheduleChunk]; exact Or.inl he
  · intro d2 t2
    simp [onmessage, h, scheduleChunk]

def c3Sched : Sched := ⟨[⟨0, 1⟩], 1⟩

theorem C3_interrupt_flush_witness :
    (⟨some 2, true⟩ : LiveMsg).interrupted = true ∧
    (onmessage c3Sched ⟨some 2, true⟩ 3).1.queue = [] ∧
    (onmessage c3Sched ⟨some 2, true⟩ 3).1.nextStartTime = 0 := by
  have h := C3_interrupt_flush c3Sched ⟨some 2, true⟩ 3 rfl
  exact ⟨rfl, h.1, h.2.1⟩

/-- C9: each received audio chunk is started at the maximum of the
next-start-time cursor and the audio context's current time, and the
cursor advances by exactly the chunk's duration; hence the cursor is
non-decreasing (for non-negative durations) and the next scheduled chunk
starts no earlier than the end of the previous one. -/
theorem C9_gapless_schedule (s : Sched) (d1 t1 d2 t2 : Rat) (h1 : 0 ≤ d1) :
    (scheduleChunk s d1 t1).2.startTime = max s.nextStartTime t1 ∧
    ((scheduleChunk s d1 t1).1).nextStartTime = (scheduleChunk s d1 t1).2.startTime + d1 ∧
    s.nextStartTime ≤ ((scheduleChunk s d1 t1).1).nextStartTime ∧
    (scheduleChunk s d1 t1).2.startTime + d1
      ≤ (scheduleChunk (scheduleChunk s d1 t1).1 d2 t2).2.startTime := by
  refine ⟨rfl, rfl, ?_, ?_⟩
  · simp only [scheduleChunk]
    calc s.nextStartTime ≤ max s.nextStartTime t1 := le_max_left _ _
      _ ≤ max s.nextStartTime t1 + d1 := le_add_of_nonneg_right h1
  · simp only [scheduleChunk]
    exact le_max_left _ _

theorem C9_gapless_schedule_witness :
    (0 : Rat) ≤ 2 ∧
    (scheduleChunk ⟨[], 5⟩ 2 3).2.startTime = max 5 3 ∧
    ((scheduleChunk ⟨[], 5⟩ 2 3).1).nextStartTime = (scheduleChunk ⟨[], 5⟩ 2 3).2.startTime + 2 := by
  have h := C9_gapless_schedule ⟨[], 5⟩ 2 3 4 6 (by norm_num)
  exact ⟨by norm_num, h.1, h.2.1⟩

/-- C5: when the trimmed prompt (or text) is empty, the submit handlers of
the text, image-generation, image-edit, image-analyze and speech
capabilities return early: no vendor request is produced and the
component state (in particular loading and error) is unchanged. -/
theorem C5_empty_prompt_no_call (s1 : TextGenState) (s2 : ImageGenState)
    (s3 : ImageEditState) (s4 : ImageAnalyzeState) (s5 : TtsState)
    (h1 : jsTrim s1.prompt = "") (h2 : jsTrim s2.prompt = "")
    (h3 : jsTrim s3.prompt = "") (h4 : jsTrim s4.prompt = "")
    (h5 : jsTrim s5.text = "") :
    textGenHandleSubmit s1 = (s1, none) ∧
    imageGenHandleSubmit s2 = (s2, none) ∧
    imageEditHandleSubmit s3 = (s3, none) ∧
    imageAnalyzeHandleSubmit s4 = (s4, none) ∧
    ttsHandleSpeak s5 = (s5, none) := by
  refine ⟨?_, ?_, ?_, ?_, ?_⟩ <;>
    simp [textGenHandleSubmit, imageGenHandleSubmit, imageEditHandleSubmit,
          imageAnalyzeHandleSubmit, ttsHandleSpeak, h1, h2, h3, h4, h5]

def c5TextW : TextGenState :=
  { prompt := "  ", response := "", isLoading := false, useThinking := false,
    useSearch := false, useMaps := false, groundingChunks := [], error := "",
    position := none }

def c5ImgW : ImageGenState :=
  { prompt := " \t ", aspect := "1:1", imageUrl := "", isLoading := false, error := "" }

def c5EditW : ImageEditState :=
  { prompt := "\n", originalImage := some ⟨"a.png", "image/png", "QQ=="⟩,
    editedImageUrl := "", isLoading := false, error := "" }

def c5AnW : ImageAnalyzeState :=
  { prompt := "", imageFile := some ⟨"a.png", "image/png", "QQ=="⟩,
    analysis := "", isLoading := false, error := "" }

def c5TtsW : TtsState := { text := "   ", isLoading := false, error := "", ctxCreated := false }

theorem C5_empty_prompt_no_call_witness :
    textGenHandleSubmit c5TextW = (c5TextW, none) ∧
    imageGenHandleSubmit c5ImgW = (c5ImgW, none) ∧
    imageEditHandleSubmit c5EditW = (c5EditW, none) ∧
    imageAnalyzeHandleSubmit c5AnW = (c5AnW, none) ∧
    ttsHandleSpeak c5TtsW = (c5TtsW, none) := by
  have h := C5_empty_prompt_no_call c5TextW c5ImgW c5EditW c5AnW c5TtsW
    (by decide) (by decide) (by decide) (by decide) (by decide)
  exact ⟨h.1, h.2.1, h.2.2.1, h.2.2.2.1, h.2.2.2.2⟩

/-- C10: the chat send handler is a no-op (no vendor call, state unchanged)
while a previous send is loading or the chat object is not initialized;
an accepted send appends the user message, clears the input and sets the
loading flag before the request (carrying the original input) is issued. -/
theorem C10_single_flight (st : ChatState) :
    (st.isLoading = true → handleSendStart st = (st, none)) ∧
    (st.chatInit = false → handleSendStart st = (st, none)) ∧
    (jsTrim st.input ≠ "" → st.chatInit = true → st.isLoading = false →
      handleSendStart st =
        ({ st with messages := st.messages ++ [⟨Role.user, st.input⟩],
                   input := "", isLoading := true }, some st.input)) := by
  refine ⟨?_, ?_, ?_⟩
  · intro h; simp [handleSendStart, h]
  · intro h; simp [handleSendStart, h]
  · intro h1 h2 h3; simp [handleSendStart, h1, h2, h3]

def c10Busy : ChatState :=
  { chatInit := true, messages := [], input := "hello", isLoading := true }

def c10Ready : ChatState :=
  { chatInit := true, messages := [], input := "hello", isLoading := false }

theorem C10_single_flight_witness :
    handleSendStart c10Busy = (c10Busy, none) ∧
    handleSendStart c10Ready =
      ({ c10Ready with messages := [⟨Role.user, "hello"⟩], input := "",
                       isLoading := true }, some "hello") := by
  refine ⟨(C10_single_flight c10Busy).1 rfl, ?_⟩
  have h := (C10_single_flight c10Ready).2.2 (by decide) rfl rfl
  exact h

/-- C6: with the Maps option on and no stored position, a successful
geolocation prompt stores the coordinates and the next text-generation
request (for a non-empty prompt) carries them in its tool configuration;
a failed prompt surfaces the specific location error message, stores no
position, and any request issued from that state carries no coordinates. -/
theorem C6_maps_grounding (st : TextGenState) (p : Coords)
    (hm : st.useMaps = true) (hp : st.position = none) :
    (mapsEffect st (.success p)).position = some p ∧
    (jsTrim st.prompt ≠ "" →
      ∃ req, (textGenHandleSubmit (mapsEffect st (.success p))).2 = some req ∧
        req.toolConfigLatLng = some (p.latitude, p.longitude)) ∧
    (mapsEffect st .failure).error
        = "Could not get location for Maps. Please grant permission." ∧
    (mapsEffect st .failure).position = none ∧
    (∀ req, (textGenHandleSubmit (mapsEffect st .failure)).2 = some req →
      req.toolConfigLatLng = none) := by
  refine ⟨?_, ?_, ?_, ?_, ?_⟩
  · simp [mapsEffect, hm, hp]
  · intro hne
    refine ⟨generateTextRequest st.prompt st.useThinking st.useSearch st.useMaps (some p),
      ?_, ?_⟩
    · simp [mapsEffect, hm, hp, textGenHandleSubmit, hne]
    · simp [generateTextRequest, hm]
  · simp [mapsEffect, hm, hp]
  · simp [mapsEffect, hm, hp]
  · intro req hreq
    by_cases hempty : jsTrim st.prompt = ""
    · simp [mapsEffect, hm, hp, textGenHandleSubmit, hempty] at hreq
    · simp [mapsEffect, hm, hp, textGenHandleSubmit, hempty] at hreq
      rw [← hreq]
      simp [generateTextRequest, hm, hp]

def c6St : TextGenState :=
  { prompt := "nearby cafes", response := "", isLoading := false, useThinking := false,
    useSearch := false, useMaps := true, groundingChunks := [], error := "",
    position := none }

theorem C6_maps_grounding_witness :
    c6St.useMaps = true ∧ c6St.position = none ∧
    (mapsEffect c6St (.success ⟨13, 77⟩)).position = some ⟨13, 77⟩ ∧
    (mapsEffect c6St .failure).error
      = "Could not get location for Maps. Please grant permission." := by
  have h := C6_maps_grounding c6St ⟨13, 77⟩ rfl rfl
  exact ⟨rfl, rfl, h.1, h.2.2.1⟩

/-- Helper: if the first `k` status checks of the loop (starting at attempt
index `i`) succeed with handles that are still incomplete and the check at
attempt `i + k` fails, then the loop returns through its catch branch:
check-failure message surfaced, loading ended, key selection reset. -/
theorem pollGo_error_at_step (refresh : Nat → Except Unit VeoOperation) :
    ∀ (k fuel i : Nat) (st : VideoUIState) (cur : VeoOperation), cur.done = false →
      (∀ j, j < k → ∃ o, refresh (i + j) = .ok o ∧ o.done = false) →
      refresh (i + k) = .error () → k < fuel →
      pollGo refresh st cur i fuel =
        .finished (pollCatch { st with loadingMessage := pollingMsg }) := by
  intro k
  induction k with
  | zero =>
    intro fuel i st cur hc _ herr hlt
    cases fuel with
    | zero => exact absurd hlt (Nat.not_lt_zero 0)
    | succ n =>
      have herr0 : refresh i = .error () := by simpa using herr
      rw [pollGo.eq_def]
      simp [hc, herr0]
  | succ k ih =>
    intro fuel i st cur hc hsucc herr hlt
    cases fuel with
    | zero => exact absurd hlt (Nat.not_lt_zero _)
    | succ n =>
      obtain ⟨o, ho, hod⟩ := hsucc 0 (Nat.succ_pos k)
      have ho0 : refresh i = .ok o := by simpa using ho
      have hnext := ih n (i + 1) { st with loadingMessage := pollingMsg } o hod
        (fun j hj => by
          have hh := hsucc (j + 1) (Nat.succ_lt_succ hj)
          have hidx : i + (j + 1) = (i + 1) + j := by omega
          rw [hidx] at hh
          exact hh)
        (by
          have hidx : i + (k + 1) = (i + 1) + k := by omega
          rw [hidx] at herr
          exact herr)
        (Nat.lt_of_succ_lt_succ hlt)
      rw [pollGo.eq_def]
      simp [hc, ho0]
      exact hnext

/-- C7: for the video feature, a failed submission is caught and turned
into a static message — routed to the reselect-credentials state
(`apiKeySelected := false`) when the thrown message contains
"Requested entity was not found", and leaving the key selection untouched
otherwise — and any failure of the status check inside the polling loop
(at any step `k`, after `k` successful refreshes that returned still
incomplete handles) surfaces the static check-failure message and resets
`apiKeySelected` to `false`. -/
theorem C7_video_error_routing (st : VideoUIState) (f : ImgFile) (msg : String)
    (refresh : Nat → Except Unit VeoOperation) (op : VeoOperation) (fuel k : Nat)
    (hp : jsTrim st.prompt ≠ "") (hf : st.imageFile = some f) :
    (strIncludes msg entityNotFoundText = true →
      videoHandleSubmit st (.error msg) refresh fuel =
        .finished { st with isLoading := false, videoUrl := none,
                            loadingMessage := "Starting video generation...",
                            error := "API Key error. Please select your API key again.",
                            apiKeySelected := false }) ∧
    (strIncludes msg entityNotFoundText = false →
      videoHandleSubmit st (.error msg) refresh fuel =
        .finished { st with isLoading := false, videoUrl := none,
                            loadingMessage := "Starting video generation...",
                            error := "Failed to start video generation." }) ∧
    (op.done = false →
      (∀ j, j < k → ∃ o, refresh j = .ok o ∧ o.done = false) →
      refresh k = .error () → k < fuel →
      videoHandleSubmit st (.ok op) refresh fuel =
        .finished { st with isLoading := false, videoUrl := none,
                            loadingMessage := pollingMsg,
                            error := checkFailedMsg, apiKeySelected := false }) := by
  refine ⟨?_, ?_, ?_⟩
  · intro hmsg
    simp [videoHandleSubmit, hp, hf, videoSubmitCatch, hmsg]
  · intro hmsg
    simp [videoHandleSubmit, hp, hf, videoSubmitCatch, hmsg]
  · intro hd hsucc herr hlt
    have hrun := pollGo_error_at_step refresh k fuel 0
      { st with isLoading := true, videoUrl := none, error := "",
                loadingMessage := "Starting video generation..." } op hd
      (fun j hj => by simpa using hsucc j hj) (by simpa using herr) hlt
    have hsub : videoHandleSubmit st (.ok op) refresh fuel =
        pollGo refresh
          { st with isLoading := true, videoUrl := none, error := "",
                    loadingMessage := "Starting video generation..." } op 0 fuel := by
      simp [videoHandleSubmit, hp, hf]
    rw [hsub, hrun]
    rfl

def c7St : VideoUIState :=
  { prompt := "a cat", imageFile := some ⟨"cat.png", "image/png", "QUJD"⟩,
    aspect := "16:9", videoUrl := none, isLoading := false, loadingMessage := "",
    error := "", apiKeySelected := true }

def c7Op : VeoOperation := { name := "operations/1", done := false, response := none }

/-- A refresh stream whose first status check succeeds with a still
incomplete handle and whose second check fails. -/
def c7Refresh : Nat → Except Unit VeoOperation :=
  fun n => if n = 0 then .ok c7Op else .error ()

theorem C7_video_error_routing_witness :
    videoHandleSubmit c7St (.ok c7Op) c7Refresh 3 =
      .finished { c7St with isLoading := false, videoUrl := none,
                            loadingMessage := pollingMsg,
                            error := checkFailedMsg, apiKeySelected := false } ∧
    videoHandleSubmit c7St (.error "Requested entity was not found: veo") c7Refresh 3 =
      .finished { c7St with isLoading := false, videoUrl := none,
                            loadingMessage := "Starting video generation...",
                            error := "API Key error. Please select your API key again.",
                            apiKeySelected := false } := by
  have h := C7_video_error_routing c7St ⟨"cat.png", "image/png", "QUJD"⟩
    "Requested entity was not found: veo" c7Refresh c7Op 3 1
    (by decide) rfl
  refine ⟨?_, h.1 (by decide)⟩
  refine h.2.2 rfl ?_ rfl (by decide)
  intro j hj
  have hj0 : j = 0 := by omega
  subst hj0
  exact ⟨c7Op, rfl, rfl⟩

/-- Helper: the scan of `editImage` finds no inline data when no part
carries any. -/
theorem firstInlinePart_eq_none :
    ∀ (ps : List RespPart), (∀ p ∈ ps, p.inlineData = none) → firstInlinePart ps = none
  | [], _ => rfl
  | p :: ps, h => by
      have hp := h p (List.mem_cons_self p ps)
      show (match p.inlineData with
            | some d => some d
            | none => firstInlinePart ps) = none
      rw [hp]
      exact firstInlinePart_eq_none ps (fun q hq => h q (List.mem_cons_of_mem p hq))

/-- C8: when the vendor response lacks the expected payload the adapter
raises a local failure: `editImage` throws "No image generated" when no
part of the first candidate carries inline data, and `generateSpeech`
throws "No audio data returned from API" when the response carries no
inline audio data; in both cases no result string is returned. -/
theorem C8_missing_payload (c : Candidate) (rest cands : List Candidate) (ct : Content)
    (hc : c.content = some ct) (hparts : ∀ p ∈ ct.parts, p.inlineData = none)
    (hall : ∀ cd ∈ cands, ∀ ct2, cd.content = some ct2 →
      ∀ p ∈ ct2.parts, p.inlineData = none) :
    editImageExtract (c :: rest) = .error (.thrown "No image generated") ∧
    generateSpeechExtract cands = .error (.thrown "No audio data returned from API") ∧
    (∀ s, editImageExtract (c :: rest) ≠ .ok s) ∧
    (∀ s, generateSpeechExtract cands ≠ .ok s) := by
  have hedit : editImageExtract (c :: rest) = .error (.thrown "No image generated") := by
    simp [editImageExtract, hc, firstInlinePart_eq_none ct.parts hparts]
  have hspeech : generateSpeechExtract cands
      = .error (.thrown "No audio data returned from API") := by
    have hd : speechAudioData cands = none := by
      cases cands with
      | nil => rfl
      | cons cd rest2 =>
        cases hcd : cd.content with
        | none => simp [speechAudioData, hcd]
        | some ct2 =>
          cases hps : ct2.parts with
          | nil => simp [speechAudioData, hcd, hps]
          | cons p ps =>
            have hpnone : p.inlineData = none := by
              have := hall cd (List.mem_cons_self cd rest2) ct2 hcd p
              rw [hps] at this
              exact this (List.mem_cons_self p ps)
            simp [speechAudioData, hcd, hps, hpnone]
    simp [generateSpeechExtract, hd]
  refine ⟨hedit, hspeech, ?_, ?_⟩
  · intro s hs; rw [hedit] at hs; exact Except.noConfusion hs
  · intro s hs; rw [hspeech] at hs; exact Except.noConfusion hs

def c8TextPart : RespPart := { text := some "hello", inlineData := none }

def c8Cand : Candidate := { content := some { parts := [c8TextPart] } }

theorem C8_missing_payload_witness :
    editImageExtract [c8Cand] = .error (.thrown "No image generated") ∧
    generateSpeechExtract [c8Cand] = .error (.thrown "No audio data returned from API") := by
  have h := C8_missing_payload c8Cand [] [c8Cand] { parts := [c8TextPart] }
    rfl (by decide) (by decide)
  exact ⟨h.1, h.2.1⟩

/-- Helper: while the handle stays incomplete and every status check keeps
succeeding with an incomplete handle, the polling loop never returns for
any amount of fuel. -/
theorem pollGo_never_done (refresh : Nat → Except Unit VeoOperation)
    (hr : ∀ j, ∃ o, refresh j = .ok o ∧ o.done = false) :
    ∀ (fuel i : Nat) (st : VideoUIState) (cur : VeoOperation), cur.done = false →
      ∃ st2 cur2, pollGo refresh st cur i fuel = .outOfFuel st2 cur2 := by
  intro fuel
  induction fuel with
  | zero =>
    intro i st cur hc
    refine ⟨{ st with loadingMessage := pollingMsg }, cur, ?_⟩
    rw [pollGo.eq_def]
    simp [hc]
  | succ n ih =>
    intro i st cur hc
    obtain ⟨o, ho, hod⟩ := hr i
    obtain ⟨st2, cur2, h2⟩ := ih (i + 1) { st with loadingMessage := pollingMsg } o hod
    refine ⟨st2, cur2, ?_⟩
    rw [pollGo.eq_def]
    simp [hc, ho, h2]

/-- C1 (amended): once the handle's completion flag is set the polling loop
terminates with no further refresh attempts at all (its result does not
depend on the fuel or the refresh outcomes); if the completed handle
carries no media locator the loop ends in the no-video error state; but a
handle that never reports completion, with status checks that keep
succeeding, is polled forever — the loop never returns at all, so no
error state is reached in that case. -/
theorem C1_poll_termination (st : VideoUIState) (refresh : Nat → Except Unit VeoOperation)
    (op : VeoOperation) (fuel : Nat) :
    (op.done = true → pollOperation st refresh op fuel = .finished (pollFinishDone st op)) ∧
    (op.done = true → (videoUri op).getD "" = "" →
      pollOperation st refresh op fuel =
        .finished { st with error := noVideoMsg, isLoading := false }) ∧
    (op.done = false → (∀ j, ∃ o, refresh j = .ok o ∧ o.done = false) →
      ∀ stf, pollOperation st refresh op fuel ≠ .finished stf) := by
  refine ⟨?_, ?_, ?_⟩
  · intro hd
    rw [pollOperation, pollGo.eq_def]
    simp [hd]
  · intro hd hu
    rw [pollOperation, pollGo.eq_def]
    simp [hd, pollFinishDone, hu]
  · intro hd hr stf hfin
    obtain ⟨st2, cur2, h2⟩ := pollGo_never_done refresh hr fuel 0 st op hd
    rw [pollOperation, h2] at hfin
    exact PollOutcome.noConfusion hfin

def c1VidSt : VideoUIState :=
  { prompt := "a cat", imageFile := some ⟨"cat.png", "image/png", "QUJD"⟩,
    aspect := "16:9", videoUrl := none, isLoading := true,
    loadingMessage := "Starting video generation...", error := "",
    apiKeySelected := true }

def c1OpDone : VeoOperation :=
  { name := "operations/done", done := true, response := some ⟨[]⟩ }

theorem C1_poll_termination_witness :
    c1OpDone.done = true ∧ (videoUri c1OpDone).getD "" = "" ∧
    pollOperation c1VidSt (fun _ => Except.ok c1OpDone) c1OpDone 7 =
      .finished { c1VidSt with error := noVideoMsg, isLoading := false } := by
  refine ⟨rfl, rfl, ?_⟩
  exact (C1_poll_termination c1VidSt (fun _ => Except.ok c1OpDone) c1OpDone 7).2.1 rfl rfl

def c1OpPending : VeoOperation :=
  { name := "operations/pending", done := false, response := none }

/-- C1 (counterexample to the claim as stated): for the concrete handle
that never reports completion while every status check succeeds, the
polling loop never reaches any final state — in particular no error
state — no matter how many refresh steps are observed; it polls forever
instead of erroring out. -/
theorem C1_poll_no_error_when_never_done :
    ¬ ∃ (fuel : Nat) (stf : VideoUIState),
        pollOperation c1VidSt (fun _ => Except.ok c1OpPending) c1OpPending fuel
          = .finished stf := by
  rintro ⟨fuel, stf, hfin⟩
  obtain ⟨st2, cur2, h2⟩ := pollGo_never_done (fun _ => Except.ok c1OpPending)
    (fun _ => ⟨c1OpPending, rfl, rfl⟩) fuel 0 c1VidSt c1OpPending rfl
  rw [pollOperation, h2] at hfin
  exact PollOutcome.noConfusion hfin

/-- C2 (amended): for any live session in which both audio contexts were
created, `stopSession` closes both the input and output audio contexts,
disconnects the processing nodes, stops and clears the pending buffer
sources and deactivates the session — even when the duplex channel was
never fully opened — but it leaves the microphone stream's tracks exactly
as they were: the stream is never stopped by the teardown. -/
theorem C2_stop_session (st : LiveState) (s : Bool)
    (h1 : st.inCtxCreated = true) (h2 : st.outCtxCreated = true) :
    (stopSession st s).inCtxClosed = true ∧
    (stopSession st s).outCtxClosed = true ∧
    (stopSession st s).sched.queue = [] ∧
    (stopSession st s).scriptConnected = false ∧
    (stopSession st s).sourceConnected = false ∧
    (stopSession st s).isSessionActive = false ∧
    (stopSession st s).micTracksStopped = st.micTracksStopped := by
  simp [stopSession, h1, h2]

theorem C2_stop_session_witness :
    (startSessionAcquired liveInit).inCtxCreated = true ∧
    (startSessionAcquired liveInit).outCtxCreated = true ∧
    (stopSession (startSessionAcquired liveInit) true).inCtxClosed = true ∧
    (stopSession (startSessionAcquired liveInit) true).outCtxClosed = true := by
  have h := C2_stop_session (startSessionAcquired liveInit) true rfl rfl
  exact ⟨rfl, rfl, h.1, h.2.1⟩

/-- C2 (counterexample to the claim as stated): in a session that was
started (microphone acquired, both contexts created) and whose channel
was never fully opened, `stopSession` leaves the microphone stream's
tracks running — the stream is not released, because no statement of the
teardown (or of the whole component) ever stops them. -/
theorem C2_mic_never_released :
    (startSessionAcquired liveInit).micAcquired = true ∧
    (startSessionAcquired liveInit).channelOpen = false ∧
    (stopSession (startSessionAcquired liveInit) true).micAcquired = true ∧
    (stopSession (startSessionAcquired liveInit) true).micTracksStopped = false := by
  decide

/-- C4 (amended): an accepted chat submission appends the user message
followed by model messages only: one model message carrying the
concatenation of the stream's chunks on success, one carrying the fixed
error text when the request fails before streaming starts, and — when the
stream fails midway — a partial model message followed by an additional
model error message (two model messages).  Earlier messages are always
preserved unchanged and in order, and loading ends. -/
theorem C4_append_order (st : ChatState) (o : SendOutcome)
    (hi : jsTrim st.input ≠ "") (hc : st.chatInit = true) (hl : st.isLoading = false) :
    (handleSend st o).messages
      = st.messages ++ ⟨Role.user, st.input⟩ ::
          (match o with
           | .success cs => [⟨Role.model, chunksConcat cs⟩]
           | .failStart => [⟨Role.model, chatErrorText⟩]
           | .failMid cs => [⟨Role.model, chunksConcat cs⟩, ⟨Role.model, chatErrorText⟩]) ∧
    (handleSend st o).isLoading = false := by
  have hstart : handleSendStart st =
      ({ st with messages := st.messages ++ [⟨Role.user, st.input⟩],
                 input := "", isLoading := true }, some st.input) := by
    simp [handleSendStart, hi, hc, hl]
  cases o with
  | success cs =>
    rw [handleSend, hstart]
    constructor
    · show streamSteps ((st.messages ++ [⟨Role.user, st.input⟩]) ++ [⟨Role.model, ""⟩]) "" cs = _
      rw [streamSteps_eq]
      simp [chunksConcat]
    · rfl
  | failStart =>
    rw [handleSend, hstart]
    refine ⟨?_, rfl⟩
    show (st.messages ++ [⟨Role.user, st.input⟩]) ++ [⟨Role.model, chatErrorText⟩] = _
    simp
  | failMid cs =>
    rw [handleSend, hstart]
    constructor
    · show streamSteps ((st.messages ++ [⟨Role.user, st.input⟩]) ++ [⟨Role.model, ""⟩]) "" cs
            ++ [⟨Role.model, chatErrorText⟩] = _
      rw [streamSteps_eq]
      simp [chunksConcat]
    · rfl

def c4St : ChatState :=
  { chatInit := true, messages := [], input := "Hi", isLoading := false }

theorem C4_append_order_witness :
    jsTrim c4St.input ≠ "" ∧
    (handleSend c4St (.success ["a", "b"])).messages
      = [⟨Role.user, "Hi"⟩, ⟨Role.model, "ab"⟩] := by
  refine ⟨by decide, ?_⟩
  have h := (C4_append_order c4St (.success ["a", "b"]) (by decide) rfl rfl).1
  rw [h]
  decide

/-- C4 (counterexample to the claim as stated): when the stream fails after
delivering a chunk, the concrete accepted submission appends three
messages — the user message, the partial model message, and a second
model message with the error text — so there is no single model content
for which the list grew by exactly one user and one model message. -/
theorem C4_two_model_messages :
    ¬ ∃ c : String, (handleSend c4St (.failMid ["He"])).messages
        = c4St.messages ++ [⟨Role.user, c4St.input⟩, ⟨Role.model, c⟩] := by
  rintro ⟨c, hc⟩
  have hval : (handleSend c4St (.failMid ["He"])).messages
      = [⟨Role.user, "Hi"⟩, ⟨Role.model, "He"⟩, ⟨Role.model, chatErrorText⟩] := by
    decide
  rw [hval] at hc
  simp [c4St] at hc

end Hareram
